import Mathlib

/-
  Verification development for the Personal-Secretary repository
  (telegram-notion-bot): a shallow embedding of src/notion_service.py,
  src/mcp_server.py and src/bot.py, together with theorems about the
  behaviour of the embedded operations.

  Modelling conventions:
  - Notion API payloads (the "properties" dictionaries) are modelled by an
    inductive Json type; Python subscripting with its exception behaviour
    (KeyError / IndexError / TypeError / AttributeError) is modelled by
    Except PyErr.
  - Remote calls may fail; a call's outcome is threaded through as an
    explicit argument of type Except String Unit, where the String is the
    text str(e) of the raised exception.
  - The document-database service is modelled as a list of pages per
    collection; its date-range filter and its ascending sort are executed
    by the model at the service boundary.  ISO calendar dates held by the
    service's date index are abstracted as integer day ordinals
    (order-isomorphic to calendar dates).
  - Emoji prefixes of user-visible strings are kept literally.
-/

-- =========================================================================
-- Python-style JSON values and subscripting
-- =========================================================================

/-- A Python value as found in Notion API payloads. -/
inductive Json where
  | null : Json
  | bool (b : Bool) : Json
  | num (n : Int) : Json
  | str (s : String) : Json
  | arr (elems : List Json) : Json
  | obj (fields : List (String × Json)) : Json

/-- The Python exceptions that the extraction helpers can meet. -/
inductive PyErr where
  | keyError : PyErr
  | indexError : PyErr
  | typeError : PyErr
  | attrError : PyErr
deriving DecidableEq

/-- First binding of a key in an association list (Python dict lookup). -/
def jLookup (fields : List (String × Json)) (k : String) : Option Json :=
  match fields with
  | [] => none
  | (k2, v) :: rest => if k2 = k then some v else jLookup rest k

/-- Python subscripting with a string key: d[k].  A dict yields the value or
KeyError; every other value raises TypeError. -/
def jGetS (j : Json) (k : String) : Except PyErr Json :=
  match j with
  | .obj fields =>
      match jLookup fields k with
      | some v => .ok v
      | none => .error .keyError
  | _ => .error .typeError

/-- Python subscripting with an integer index: v[i].  A list yields the
element or IndexError; a string yields a one-character string or IndexError;
a dict raises KeyError (an int key is never present in these payloads, whose
keys are strings); everything else raises TypeError. -/
def jGetN (j : Json) (i : Nat) : Except PyErr Json :=
  match j with
  | .arr elems =>
      match elems[i]? with
      | some v => .ok v
      | none => .error .indexError
  | .str s =>
      match s.data[i]? with
      | some c => .ok (.str (String.mk [c]))
      | none => .error .indexError
  | .obj _ => .error .keyError
  | _ => .error .typeError

/-- Python d.get(k, default): total on dicts, AttributeError otherwise. -/
def jDictGet (j : Json) (k : String) (dflt : Json) : Except PyErr Json :=
  match j with
  | .obj fields => .ok ((jLookup fields k).getD dflt)
  | _ => .error .attrError

/-- Python truthiness of a value. -/
def jsonTruthy : Json → Bool
  | .null => false
  | .bool b => b
  | .num n => n != 0
  | .str s => s != ""
  | .arr elems => !elems.isEmpty
  | .obj fields => !fields.isEmpty

/-- Python equality test of a value against a string constant (a non-string
value never equals a string). -/
def jsonIsStr (j : Json) (s : String) : Bool :=
  match j with
  | .str t => t = s
  | _ => false

/-- Python str() / f-string formatting of the values that reach the chat
transport in the modelled paths (strings and numbers; the composite cases
never occur in the rendered fields). -/
def fmtJson : Json → String
  | .str s => s
  | .num n => toString n
  | .bool b => if b then "True" else "False"
  | .null => "None"
  | .arr _ => "[...]"
  | .obj _ => "\x7b...\x7d"

-- =========================================================================
-- notion_service.py: field-extraction helpers
-- =========================================================================

/-- The subscript chain of _get_title: props[prop_name]["title"][0]["text"]["content"]. -/
def titleChain (props : Json) (propName : String) : Except PyErr Json := do
  let a ← jGetS props propName
  let b ← jGetS a "title"
  let c ← jGetN b 0
  let d ← jGetS c "text"
  jGetS d "content"

/-- notion_service._get_title: catches KeyError and IndexError, returning the
sentinel "Untitled"; any other exception propagates. -/
def _get_title (props : Json) (propName : String) : Except PyErr Json :=
  match titleChain props propName with
  | .ok v => .ok v
  | .error .keyError => .ok (.str "Untitled")
  | .error .indexError => .ok (.str "Untitled")
  | .error e => .error e

/-- The subscript chain of _get_text: props[prop_name]["rich_text"][0]["text"]["content"]. -/
def textChain (props : Json) (propName : String) : Except PyErr Json := do
  let a ← jGetS props propName
  let b ← jGetS a "rich_text"
  let c ← jGetN b 0
  let d ← jGetS c "text"
  jGetS d "content"

/-- notion_service._get_text: catches KeyError and IndexError, returning the
empty string; any other exception propagates. -/
def _get_text (props : Json) (propName : String) : Except PyErr Json :=
  match textChain props propName with
  | .ok v => .ok v
  | .error .keyError => .ok (.str "")
  | .error .indexError => .ok (.str "")
  | .error e => .error e

/-- The subscript chain of _get_date: props[prop_name]["date"]["start"]. -/
def dateChain (props : Json) (propName : String) : Except PyErr Json := do
  let a ← jGetS props propName
  let b ← jGetS a "date"
  jGetS b "start"

/-- notion_service._get_date: catches KeyError and TypeError, returning the
sentinel "No date"; any other exception propagates. -/
def _get_date (props : Json) (propName : String) : Except PyErr Json :=
  match dateChain props propName with
  | .ok v => .ok v
  | .error .keyError => .ok (.str "No date")
  | .error .typeError => .ok (.str "No date")
  | .error e => .error e

/-- The subscript chain of _get_status: props[prop_name]["status"]["name"]. -/
def statusChain (props : Json) (propName : String) : Except PyErr Json := do
  let a ← jGetS props propName
  let b ← jGetS a "status"
  jGetS b "name"

/-- notion_service._get_status: catches KeyError and TypeError, returning
"Not started"; any other exception propagates. -/
def _get_status (props : Json) (propName : String) : Except PyErr Json :=
  match statusChain props propName with
  | .ok v => .ok v
  | .error .keyError => .ok (.str "Not started")
  | .error .typeError => .ok (.str "Not started")
  | .error e => .error e

-- =========================================================================
-- Pages, the store model, and _parse_items
-- =========================================================================

/-- A stored Notion page: its id and its properties payload. -/
structure Page where
  id : String
  props : Json

/-- Service-side date index of a page: the value of the "Due Date" property
as seen by the document-database service, used by its date filter and its
ascending sort.  Dates are abstracted as integer day ordinals. -/
def pageDue (p : Page) : Option Int :=
  match jGetS p.props "Due Date" with
  | .ok v =>
      match jGetS v "date" with
      | .ok dv =>
          match jGetS dv "start" with
          | .ok (.num n) => some n
          | _ => none
      | _ => none
  | _ => none

/-- Sort key used by the service for "Due Date ascending". -/
def dueKey (p : Page) : Int := (pageDue p).getD 0

/-- Ordering of pages by the service's due-date index. -/
def pageLe (p q : Page) : Prop := dueKey p ≤ dueKey q

instance : DecidableRel pageLe := fun p q => Int.decLe (dueKey p) (dueKey q)

instance : IsTotal Page pageLe := ⟨fun p q => Int.le_total (dueKey p) (dueKey q)⟩

instance : IsTrans Page pageLe := ⟨fun _ _ _ h1 h2 => le_trans h1 h2⟩

/-- Service: create appends the new page to the collection. -/
def dbCreate (db : List Page) (p : Page) : List Page := db ++ [p]

/-- Service: an unfiltered query with "Due Date ascending" sort. -/
def dbSortByDue (db : List Page) : List Page := List.insertionSort pageLe db

/-- Service: a date-range filter (on_or_after lo and on_or_before hi, both
inclusive) composed with the ascending sort; pages without a date index are
not matched by a date filter. -/
def inWindow (lo hi : Int) (p : Page) : Bool :=
  match pageDue p with
  | some n => decide (lo ≤ n) && decide (n ≤ hi)
  | none => false

def dbQueryWindow (lo hi : Int) (db : List Page) : List Page :=
  List.insertionSort pageLe (db.filter (inWindow lo hi))

/-- One parsed item as produced by notion_service._parse_items; the
description field is present exactly for labs. -/
structure Item where
  id : String
  name : Json
  course_code : Json
  due_date : Json
  notes : Json
  status : Json
  description : Option Json

/-- notion_service._parse_items, one page. -/
def parse_item (itemType : String) (p : Page) : Except PyErr Item := do
  let nm ← _get_title p.props "Name"
  let cc ← _get_text p.props "Course Code"
  let dd ← _get_date p.props "Due Date"
  let nt ← _get_text p.props "Notes"
  let st ← _get_status p.props "status"
  if itemType = "lab" then
    let ds ← _get_text p.props "Description"
    pure ⟨p.id, nm, cc, dd, nt, st, some ds⟩
  else
    pure ⟨p.id, nm, cc, dd, nt, st, none⟩

/-- notion_service._parse_items over a result list; the first raising page
aborts the loop (the exception propagates to the caller's handler). -/
def parse_items (itemType : String) : List Page → Except PyErr (List Item)
  | [] => .ok []
  | p :: ps => do
      let it ← parse_item itemType p
      let rest ← parse_items itemType ps
      pure (it :: rest)

-- =========================================================================
-- notion_service.py: create / list / update operations
-- =========================================================================

/-- The success-or-failure dictionary returned by every notion_service
mutation. -/
structure SResult where
  success : Bool
  message : String
deriving DecidableEq

/-- The properties payload built by notion_service.add_assignment. -/
def assignment_properties (name course_code due_date notes status : String) : Json :=
  Json.obj [
    ("Name", Json.obj [("title", Json.arr [Json.obj [("text", Json.obj [("content", Json.str name)])]])]),
    ("Course Code", Json.obj [("rich_text", Json.arr [Json.obj [("text", Json.obj [("content", Json.str course_code)])]])]),
    ("Due Date", Json.obj [("date", Json.obj [("start", Json.str due_date)])]),
    ("Notes", Json.obj [("rich_text", Json.arr [Json.obj [("text", Json.obj [("content", Json.str notes)])]])]),
    ("status", Json.obj [("status", Json.obj [("name", Json.str status)])])
  ]

/-- The properties payload built by notion_service.add_lab. -/
def lab_properties (name course_code due_date description notes status : String) : Json :=
  Json.obj [
    ("Name", Json.obj [("title", Json.arr [Json.obj [("text", Json.obj [("content", Json.str name)])]])]),
    ("Course Code", Json.obj [("rich_text", Json.arr [Json.obj [("text", Json.obj [("content", Json.str course_code)])]])]),
    ("Due Date", Json.obj [("date", Json.obj [("start", Json.str due_date)])]),
    ("Description", Json.obj [("rich_text", Json.arr [Json.obj [("text", Json.obj [("content", Json.str description)])]])]),
    ("Notes", Json.obj [("rich_text", Json.arr [Json.obj [("text", Json.obj [("content", Json.str notes)])]])]),
    ("status", Json.obj [("status", Json.obj [("name", Json.str status)])])
  ]

/-- The properties payload built by notion_service.add_project. -/
def project_properties (name course_code due_date notes status : String) : Json :=
  Json.obj [
    ("Name", Json.obj [("title", Json.arr [Json.obj [("text", Json.obj [("content", Json.str name)])]])]),
    ("Course Code", Json.obj [("rich_text", Json.arr [Json.obj [("text", Json.obj [("content", Json.str course_code)])]])]),
    ("Due Date", Json.obj [("date", Json.obj [("start", Json.str due_date)])]),
    ("Notes", Json.obj [("rich_text", Json.arr [Json.obj [("text", Json.obj [("content", Json.str notes)])]])]),
    ("status", Json.obj [("status", Json.obj [("name", Json.str status)])])
  ]

/-- notion_service.add_assignment: the returned dictionary.  The remote call
outcome is an explicit argument; on failure the exception is caught and a
tagged failure with the exception text is returned. -/
def add_assignment_result (name : String) (remote : Except String Unit) : SResult :=
  match remote with
  | .ok _ => ⟨true, "Assignment \x27" ++ name ++ "\x27 added successfully!"⟩
  | .error e => ⟨false, "Error adding assignment: " ++ e⟩

/-- notion_service.add_lab: the returned dictionary. -/
def add_lab_result (name : String) (remote : Except String Unit) : SResult :=
  match remote with
  | .ok _ => ⟨true, "Lab \x27" ++ name ++ "\x27 added successfully!"⟩
  | .error e => ⟨false, "Error adding lab: " ++ e⟩

/-- notion_service.add_project: the returned dictionary. -/
def add_project_result (name : String) (remote : Except String Unit) : SResult :=
  match remote with
  | .ok _ => ⟨true, "Project \x27" ++ name ++ "\x27 added successfully!"⟩
  | .error e => ⟨false, "Error adding project: " ++ e⟩

/-- notion_service.add_course: the returned dictionary. -/
def add_course_result (name : String) (remote : Except String Unit) : SResult :=
  match remote with
  | .ok _ => ⟨true, "Course \x27" ++ name ++ "\x27 added successfully!"⟩
  | .error e => ⟨false, "Error adding course: " ++ e⟩

/-- notion_service.update_status: the returned dictionary. -/
def update_status_result (newStatus : String) (remote : Except String Unit) : SResult :=
  match remote with
  | .ok _ => ⟨true, "Status updated to \x27" ++ newStatus ++ "\x27"⟩
  | .error e => ⟨false, "Error updating status: " ++ e⟩

/-- notion_service.update_due_date: the returned dictionary. -/
def update_due_date_result (newDate : String) (remote : Except String Unit) : SResult :=
  match remote with
  | .ok _ => ⟨true, "Due date updated to \x27" ++ newDate ++ "\x27"⟩
  | .error e => ⟨false, "Error updating due date: " ++ e⟩

/-- notion_service.update_course: the returned dictionary. -/
def update_course_result (newCourse : String) (remote : Except String Unit) : SResult :=
  match remote with
  | .ok _ => ⟨true, "Course updated to \x27" ++ newCourse ++ "\x27"⟩
  | .error e => ⟨false, "Error updating course: " ++ e⟩

/-- notion_service.update_notes: the returned dictionary. -/
def update_notes_result (remote : Except String Unit) : SResult :=
  match remote with
  | .ok _ => ⟨true, "Notes updated"⟩
  | .error e => ⟨false, "Error updating notes: " ++ e⟩

/-- notion_service.delete_item (soft delete by archival): the returned
dictionary. -/
def delete_item_result (remote : Except String Unit) : SResult :=
  match remote with
  | .ok _ => ⟨true, "Item deleted"⟩
  | .error e => ⟨false, "Error deleting item: " ++ e⟩

/-- The page written into the store by a successful
notion_service.add_assignment with notes and status left at their Python
defaults ("" and "Not started"). -/
def add_assignment_page (newId name course_code due_date : String) : Page :=
  ⟨newId, assignment_properties name course_code due_date "" "Not started"⟩

/-- The page written by a successful notion_service.add_lab with description,
notes and status left at their Python defaults. -/
def add_lab_page (newId name course_code due_date : String) : Page :=
  ⟨newId, lab_properties name course_code due_date "" "" "Not started"⟩

/-- The page written by a successful notion_service.add_project with notes
and status left at their Python defaults. -/
def add_project_page (newId name course_code due_date : String) : Page :=
  ⟨newId, project_properties name course_code due_date "" "Not started"⟩

/-- notion_service.list_assignments: queries sorted by Due Date ascending and
parses; any exception (remote failure or a parsing error) is caught and the
empty list returned. -/
def list_assignments (db : List Page) (remote : Except String Unit) : List Item :=
  match remote with
  | .error _ => []
  | .ok _ =>
      match parse_items "assignment" (dbSortByDue db) with
      | .ok items => items
      | .error _ => []

/-- notion_service.list_labs. -/
def list_labs (db : List Page) (remote : Except String Unit) : List Item :=
  match remote with
  | .error _ => []
  | .ok _ =>
      match parse_items "lab" (dbSortByDue db) with
      | .ok items => items
      | .error _ => []

/-- notion_service.list_projects. -/
def list_projects (db : List Page) (remote : Except String Unit) : List Item :=
  match remote with
  | .error _ => []
  | .ok _ =>
      match parse_items "project" (dbSortByDue db) with
      | .ok items => items
      | .error _ => []

/-- A parsed course dictionary as built inside notion_service.list_courses. -/
structure Course where
  id : String
  name : Json
  course_code : Json
  semester : Json
  professor : Json
  ects : Json

/-- The per-page body of notion_service.list_courses: semester and ects use
the two-level dict .get chain with defaults. -/
def parse_course (p : Page) : Except PyErr Course := do
  let nm ← _get_title p.props "Name"
  let cc ← _get_text p.props "Course Code"
  let sem0 ← jDictGet p.props "Semester" (Json.obj [])
  let sem ← jDictGet sem0 "number" (Json.num 0)
  let pf ← _get_text p.props "Professor"
  let ec0 ← jDictGet p.props "ECTS" (Json.obj [])
  let ec ← jDictGet ec0 "number" (Json.num 0)
  pure ⟨p.id, nm, cc, sem, pf, ec⟩

def parse_courses : List Page → Except PyErr (List Course)
  | [] => .ok []
  | p :: ps => do
      let c ← parse_course p
      let rest ← parse_courses ps
      pure (c :: rest)

/-- Service-side sort key of the Courses query ("Semester ascending"). -/
def semesterKey (p : Page) : Int :=
  match jGetS p.props "Semester" with
  | .ok v =>
      match jGetS v "number" with
      | .ok (.num n) => n
      | _ => 0
  | _ => 0

def semLe (p q : Page) : Prop := semesterKey p ≤ semesterKey q

instance : DecidableRel semLe := fun p q => Int.decLe (semesterKey p) (semesterKey q)

/-- notion_service.list_courses: queries sorted by Semester ascending and
parses; any exception is caught and the empty list returned. -/
def list_courses (db : List Page) (remote : Except String Unit) : List Course :=
  match remote with
  | .error _ => []
  | .ok _ =>
      match parse_courses (List.insertionSort semLe db) with
      | .ok cs => cs
      | .error _ => []

/-- The per-collection grouping returned by notion_service.get_upcoming. -/
structure UpcomingWork where
  assignments : List Item
  labs : List Item
  projects : List Item

/-- One collection of notion_service.get_upcoming: the windowed, sorted query
followed by _parse_items; a remote failure or a parsing exception is caught
per collection and leaves that collection empty. -/
def upcoming_collection (itemType : String) (today futureDate : Int)
    (db : List Page) (remote : Except String Unit) : List Item :=
  match remote with
  | .error _ => []
  | .ok _ =>
      match parse_items itemType (dbQueryWindow today futureDate db) with
      | .ok items => items
      | .error _ => []

/-- notion_service.get_upcoming: future_date is today plus the requested
number of days; the three collections are queried independently. -/
def get_upcoming (days today : Int) (dbA dbL dbP : List Page)
    (rA rL rP : Except String Unit) : UpcomingWork :=
  let futureDate := today + days
  { assignments := upcoming_collection "assignment" today futureDate dbA rA
    labs := upcoming_collection "lab" today futureDate dbL rL
    projects := upcoming_collection "project" today futureDate dbP rP }

-- =========================================================================
-- mcp_server.py: tool-facing helpers
-- =========================================================================

/-- The properties payload built by mcp_server.add_assignment: the title is
written under the key "Title" (notion_service writes it under "Name"). -/
def mcp_assignment_properties (title course due_date notes status : String) : Json :=
  Json.obj [
    ("Title", Json.obj [("title", Json.arr [Json.obj [("text", Json.obj [("content", Json.str title)])]])]),
    ("Due Date", Json.obj [("date", Json.obj [("start", Json.str due_date)])]),
    ("Course Code", Json.obj [("rich_text", Json.arr [Json.obj [("text", Json.obj [("content", Json.str course)])]])]),
    ("Notes", Json.obj [("rich_text", Json.arr [Json.obj [("text", Json.obj [("content", Json.str notes)])]])]),
    ("status", Json.obj [("status", Json.obj [("name", Json.str status)])])
  ]

/-- The page written by a successful mcp_server.add_assignment with notes and
status left at their Python defaults. -/
def mcp_add_assignment_page (newId title course due_date : String) : Page :=
  ⟨newId, mcp_assignment_properties title course due_date "" "Not started"⟩

/-- mcp_server.add_assignment: on success returns True; on failure the
exception is printed and re-raised ("raise"), so the error propagates to the
caller. -/
def mcp_add_assignment (remote : Except String Unit) : Except String Bool :=
  match remote with
  | .ok _ => .ok true
  | .error e => .error e

/-- mcp_server.handle_call_tool, add_assignment branch: the try/except around
the dispatch catches anything the helper raised and renders it as an error
text. -/
def handle_call_tool_add_assignment (title course due_date : String)
    (remote : Except String Unit) : String :=
  match mcp_add_assignment remote with
  | .ok _ => "✅ Assignment \x27" ++ title ++ "\x27 added successfully for " ++ course ++ ", due " ++ due_date
  | .error e => "Error executing tool add_assignment: " ++ e

-- =========================================================================
-- Python date handling: str.strip() and datetime.strptime(s, "%Y-%m-%d")
-- =========================================================================

/-- Python str.strip() whitespace set (modelled over its ASCII members:
space, tab, newline, carriage return, vertical tab, form feed). -/
def isPySpace (c : Char) : Bool :=
  c.toNat = 32 || c.toNat = 9 || c.toNat = 10 || c.toNat = 13 || c.toNat = 11 || c.toNat = 12

/-- Python str.strip(): drop whitespace from both ends. -/
def pyStripChars (l : List Char) : List Char :=
  ((l.dropWhile isPySpace).reverse.dropWhile isPySpace).reverse

def pyStrip (s : String) : String := String.mk (pyStripChars s.data)

/-- An ASCII decimal digit. -/
def isDigitChar (c : Char) : Bool := 48 ≤ c.toNat && c.toNat ≤ 57

/-- Numeric value of a run of decimal digit characters. -/
def natOfChars (l : List Char) : Nat :=
  l.foldl (fun n c => 10 * n + (c.toNat - 48)) 0

/-- 1996-style leap-year rule used by Python datetime. -/
def isLeap (y : Nat) : Bool :=
  y % 4 = 0 && (y % 100 != 0 || y % 400 = 0)

/-- Days in a month as validated by the datetime constructor. -/
def daysInMonth (y m : Nat) : Nat :=
  if m = 2 then (if isLeap y then 29 else 28)
  else if m = 4 ∨ m = 6 ∨ m = 9 ∨ m = 11 then 30
  else 31

/-- The value checks performed after the %Y-%m-%d pattern match: the regex
classes allow month 1..12 and day 1..31 (one or two digits, no "00"), and
the datetime constructor then requires year at least 1 and the day to exist
in the month.  Digits are modelled over ASCII 0-9. -/
def mkYMD (ys ms ds : List Char) : Option (Nat × Nat × Nat) :=
  if (ys ++ ms ++ ds).all isDigitChar then
    let y := natOfChars ys
    let m := natOfChars ms
    let d := natOfChars ds
    if 1 ≤ y ∧ 1 ≤ m ∧ m ≤ 12 ∧ 1 ≤ d ∧ d ≤ 31 ∧ d ≤ daysInMonth y m then
      some (y, m, d)
    else none
  else none

/-- Split a character list at every dash (the dash-free groups, in order;
like "s".split("-") in Python). -/
def splitOnDash : List Char → List (List Char)
  | [] => [[]]
  | c :: rest =>
      if c = '-' then [] :: splitOnDash rest
      else
        match splitOnDash rest with
        | [] => [[c]]
        | seg :: segs => (c :: seg) :: segs

/-- datetime.strptime(s, "%Y-%m-%d") acceptance.  The compiled pattern is
four digits, a dash, one or two digits, a dash, one or two digits, with the
whole string consumed; since the groups are digit-only, this is equivalent to
requiring exactly three dash-free groups of those lengths, all digits, with
the group-value checks of mkYMD.  Returns the parsed (year, month, day) on
success. -/
def parseYMDChars (cs : List Char) : Option (Nat × Nat × Nat) :=
  match splitOnDash cs with
  | [ys, ms, ds] =>
      if ys.length = 4 ∧ 1 ≤ ms.length ∧ ms.length ≤ 2 ∧ 1 ≤ ds.length ∧ ds.length ≤ 2 then
        mkYMD ys ms ds
      else none
  | _ => none

def strptimeOk (s : String) : Bool := (parseYMDChars s.data).isSome

/-- The specification-side notion of a valid ISO calendar date: exactly the
zero-padded shape YYYY-MM-DD denoting a real calendar date. -/
def isISODateSpec (s : String) : Bool :=
  match s.data with
  | [y1, y2, y3, y4, '-', m1, m2, '-', d1, d2] =>
      if ([y1, y2, y3, y4, m1, m2, d1, d2]).all isDigitChar then
        let y := natOfChars [y1, y2, y3, y4]
        let m := natOfChars [m1, m2]
        let d := natOfChars [d1, d2]
        decide (1 ≤ y ∧ 1 ≤ m ∧ m ≤ 12 ∧ 1 ≤ d ∧ d ≤ daysInMonth y m)
      else false
  | _ => false

-- =========================================================================
-- bot.py: conversation states, session drafts, handlers
-- =========================================================================

def MAIN_MENU : Nat := 0
def ADD_MENU : Nat := 10
def ADD_ASSIGNMENT_NAME : Nat := 11
def ADD_ASSIGNMENT_COURSE : Nat := 12
def ADD_ASSIGNMENT_DATE : Nat := 13
def ADD_ASSIGNMENT_NOTES : Nat := 14
def LIST_MENU : Nat := 50
def LIST_ASSIGNMENTS_SELECT : Nat := 51
def ITEM_ACTION : Nat := 54
def EDIT_DATE : Nat := 55
def UPCOMING_MENU : Nat := 60

/-- The per-session context.user_data scratch mapping. -/
def Draft := List (String × String)

instance : DecidableEq Draft := fun a b => List.hasDecEq a b

/-- Python dict read, first binding wins (bindings are kept deduplicated by
draftInsert). -/
def draftGet (d : Draft) (k : String) : Option String :=
  match d with
  | [] => none
  | (k2, v) :: rest => if k2 = k then some v else draftGet rest k

/-- Python dict assignment context.user_data[k] = v. -/
def draftInsert (d : Draft) (k v : String) : Draft :=
  (k, v) :: (List.filter (fun p : String × String => !(p.fst = k : Bool)) d)

/-- An inbound Telegram event reaching a handler: a button-press callback
with its payload, or a free-text message. -/
inductive TgInput where
  | cb (data : String) : TgInput
  | text (s : String) : TgInput

def no_courses_message : String :=
  "⚠️ No courses found in Notion!\n\nPlease add a course first."

def select_course_prompt : String := "📚 Select the course:"

def add_menu_prompt : String := "What would you like to add?"

def invalid_date_message : String :=
  "❌ Invalid date format. Please use YYYY-MM-DD\n\nExample: 2025-12-20"

def edit_invalid_date_message : String :=
  "❌ Invalid format. Use YYYY-MM-DD (e.g., 2025-12-20)"

def cancel_message : String := "❌ Cancelled. Returning to main menu."

def notes_prompt (name course due : String) : String :=
  "📝 Any notes for this assignment?\n\nName: " ++ name ++ "\nCourse: " ++ course ++ "\nDue: " ++ due

def add_assignment_success_text (name course due notes : String) : String :=
  "✅ Assignment added!\n\n📝 " ++ name ++ "\n📚 " ++ course ++ "\n📅 " ++ due
    ++ "\n📌 " ++ (if notes = "" then "No notes" else notes)

/-- bot.add_assignment_name on a text message: the name is written into the
draft first; only then are the courses fetched, and an empty course list
short-circuits back to the Add menu (the draft is not cleared there). -/
def add_assignment_name_handler (dr : Draft) (t : String)
    (coursesDb : List Page) (remote : Except String Unit) : Nat × Draft × String :=
  let dr2 := draftInsert dr "assignment_name" t
  let courses := list_courses coursesDb remote
  if courses.isEmpty then (ADD_MENU, dr2, no_courses_message)
  else (ADD_ASSIGNMENT_COURSE, dr2, select_course_prompt)

/-- bot.add_assignment_date_text: the text is stripped and validated with
strptime %Y-%m-%d; on failure the handler re-displays the error and stays in
ADD_ASSIGNMENT_DATE with the draft untouched; on success the stripped date is
stored in the draft and the flow advances to the notes state.  The reply of
the success branch reads the name and course from the draft; a missing key
there raises (modelled by none), after the date was already written. -/
def add_assignment_date_text (dr : Draft) (t : String) : Option (Nat × Draft × String) :=
  let dateText := pyStrip t
  match parseYMDChars dateText.data with
  | none => some (ADD_ASSIGNMENT_DATE, dr, invalid_date_message)
  | some _ =>
      let dr2 := draftInsert dr "assignment_date" dateText
      match draftGet dr2 "assignment_name", draftGet dr2 "assignment_course" with
      | some nm, some cs => some (ADD_ASSIGNMENT_NOTES, dr2, notes_prompt nm cs dateText)
      | _, _ => none

/-- The save branch of bot.add_assignment_notes: the three draft fields are
read (a missing one raises, modelled by none), exactly one create call is
issued, and the handler clears the session and returns MAIN_MENU whether the
create succeeded or failed.  The last component counts the create calls. -/
def add_assignment_save (dr : Draft) (notes : String)
    (remote : Except String Unit) : Option (Nat × Draft × Nat × String) :=
  match draftGet dr "assignment_name", draftGet dr "assignment_course",
      draftGet dr "assignment_date" with
  | some nm, some cs, some dt =>
      let result := add_assignment_result nm remote
      some (MAIN_MENU, [], 1,
        if result.success then add_assignment_success_text nm cs dt notes
        else "❌ Error: " ++ result.message)
  | _, _, _ => none

/-- bot.add_assignment_notes: back_add clears the session and returns to the
Add menu; skip saves with empty notes; any other callback self-loops; a text
message saves with that text as notes. -/
def add_assignment_notes_handler (dr : Draft) (i : TgInput)
    (remote : Except String Unit) : Option (Nat × Draft × Nat × String) :=
  match i with
  | .cb dat =>
      if dat = "back_add" then some (ADD_MENU, [], 0, add_menu_prompt)
      else if dat = "skip" then add_assignment_save dr "" remote
      else some (ADD_ASSIGNMENT_NOTES, dr, 0, "")
  | .text s => add_assignment_save dr s remote

/-- bot.cancel: clears the session and returns to the main menu. -/
def cancel_handler (_dr : Draft) : Nat × Draft × String :=
  (MAIN_MENU, ([] : Draft), cancel_message)

/-- bot.edit_date_text_handler: invalid input re-displays the error and stays
in EDIT_DATE with the draft untouched; valid input issues update_due_date at
once (no draft write), renders the outcome, clears the session and returns to
the main menu unconditionally. -/
def edit_date_text_handler (dr : Draft) (t : String)
    (remote : Except String Unit) : Nat × Draft × String :=
  let dateText := pyStrip t
  let _itemId := (draftGet dr "selected_item_id").getD ""
  match parseYMDChars dateText.data with
  | none => (EDIT_DATE, dr, edit_invalid_date_message)
  | some _ =>
      let result := update_due_date_result dateText remote
      (MAIN_MENU, ([] : Draft),
        if result.success then "✅ Due date updated to " ++ dateText ++ "!"
        else "❌ Error: " ++ result.message)

-- =========================================================================
-- bot.py: keyboards, pick-lists and renderings
-- =========================================================================

def emoji_not_started : String := "⚪"
def emoji_in_progress : String := "🔵"
def emoji_done : String := "✅"

/-- bot._status_emoji: unrecognized statuses collapse to the Not-started
glyph. -/
def status_emoji (status : Json) : String :=
  if jsonIsStr status "Not started" then emoji_not_started
  else if jsonIsStr status "In progress" then emoji_in_progress
  else if jsonIsStr status "Done" then emoji_done
  else emoji_not_started

/-- Python s[:32]: the first 32 characters of the string. -/
def pySlice32 (s : String) : String := String.mk (s.data.take 32)

/-- The filter of bot.items_list_keyboard: items with a falsy or sentinel
"Untitled" name are skipped. -/
def keep_item (it : Item) : Bool :=
  jsonTruthy it.name && !(jsonIsStr it.name "Untitled")

/-- One pick-list button of bot.items_list_keyboard: display text and
callback payload; the payload embeds the id truncated to 32 characters. -/
def mk_item_button (itemType : String) (it : Item) : String × String :=
  (status_emoji it.status ++ " " ++ fmtJson it.name ++ " (" ++ fmtJson it.course_code ++ ")",
   itemType ++ "_" ++ pySlice32 it.id)

/-- bot.items_list_keyboard as the flat list of (text, callback) buttons. -/
def items_list_buttons (items : List Item) (itemType : String) : List (String × String) :=
  (items.filter keep_item).map (mk_item_button itemType) ++ [("🔙 Back", "back_list")]

/-- The filter of bot.courses_keyboard: courses with a falsy or sentinel name
or a falsy course code are skipped. -/
def keep_course (c : Course) : Bool :=
  jsonTruthy c.name && !(jsonIsStr c.name "Untitled") && jsonTruthy c.course_code

/-- bot.courses_keyboard as the flat list of (text, callback) buttons. -/
def courses_buttons (courses : List Course) : List (String × String) :=
  (courses.filter keep_course).map
      (fun c => (fmtJson c.course_code ++ " - " ++ fmtJson c.name,
                 "course_" ++ fmtJson c.course_code))
    ++ [("🔙 Back", "back_add")]

/-- The filter applied by bot.list_menu_handler before rendering or building
a pick-list: items with a falsy or sentinel "Untitled" name are dropped. -/
def keep_listed (it : Item) : Bool :=
  jsonTruthy it.name && !(jsonIsStr it.name "Untitled")

def keep_listed_course (c : Course) : Bool :=
  jsonTruthy c.name && !(jsonIsStr c.name "Untitled")

/-- One line pair of the courses listing in bot.list_menu_handler. -/
def course_listing_line (c : Course) : String :=
  "📚 " ++ fmtJson c.name ++ " (" ++ fmtJson c.course_code ++ ")\n"
    ++ "   Semester " ++ fmtJson c.semester ++ " | " ++ fmtJson c.ects ++ " ECTS\n\n"

/-- The rendered lines of the courses listing (filter then format). -/
def courses_listing_lines (items : List Course) : List String :=
  (items.filter keep_listed_course).map course_listing_line

/-- bot.list_menu_handler, list_courses branch: the full reply text. -/
def courses_listing_text (items : List Course) : String :=
  if items.isEmpty then "📭 No courses found."
  else "📖 Your Courses:\n\n" ++ String.join (courses_listing_lines items)

def no_assignments_message : String := "📭 No assignments found."

/-- bot.list_menu_handler, list_assignments branch: reply text and next
state.  An empty fetch answers not-found; a non-empty fetch is filtered and,
when nothing survives, answers the same not-found text. -/
def list_assignments_response (db : List Page) (remote : Except String Unit) : String × Nat :=
  let items := list_assignments db remote
  if items.isEmpty then (no_assignments_message, LIST_MENU)
  else
    let items2 := items.filter keep_listed
    if items2.isEmpty then (no_assignments_message, LIST_MENU)
    else ("📝 Your Assignments:\n\nTap one to change its status:", LIST_ASSIGNMENTS_SELECT)

/-- Python startswith: full_id.startswith(item_id). -/
def pyStartsWith (s pre : String) : Bool := List.isPrefixOf pre.data s.data

/-- The selection loop of bot.list_assignments_select_handler: the first item
of the freshly fetched list whose full id starts with the truncated payload
id wins. -/
def resolve_selected (itemId : String) (items : List Item) : Option Item :=
  items.find? (fun i => pyStartsWith i.id itemId)

/-- bot.list_assignments_select_handler, item branch: re-fetch the list and
resolve the truncated id against it. -/
def list_assignments_select (itemId : String) (db : List Page)
    (remote : Except String Unit) : Option Item :=
  resolve_selected itemId (list_assignments db remote)

/-- One rendered line of bot.upcoming_menu_handler. -/
def upcoming_item_line (it : Item) : String :=
  "  • " ++ fmtJson it.name ++ " (" ++ fmtJson it.course_code ++ ") - "
    ++ fmtJson it.due_date ++ "\n"

/-- bot.upcoming_menu_handler: the full reply text for a day window.  The
three sections render every fetched item; no sentinel filtering happens
here. -/
def upcoming_text (days : Int) (w : UpcomingWork) : String :=
  if w.assignments.length + w.labs.length + w.projects.length = 0 then
    "🎉 Nothing due in the next " ++ toString days ++ " days!"
  else
    "📅 Due in the next " ++ toString days ++ " days:\n\n"
      ++ (if w.assignments.isEmpty then ""
          else "📝 Assignments:\n" ++ String.join (w.assignments.map upcoming_item_line) ++ "\n")
      ++ (if w.labs.isEmpty then ""
          else "🔬 Labs:\n" ++ String.join (w.labs.map upcoming_item_line) ++ "\n")
      ++ (if w.projects.isEmpty then ""
          else "🎯 Projects:\n" ++ String.join (w.projects.map upcoming_item_line))

/-- A concrete partially-initialized remote record as parsed back: the name
carries the sentinel. -/
def untitled_item : Item :=
  ⟨"id-1", Json.str "Untitled", Json.str "CS101", Json.str "2025-12-20",
   Json.str "", Json.str "Not started", none⟩

/-- A concrete page used to exercise the upcoming-work query: its service
date index is day 3. -/
def upcoming_demo_page : Page :=
  ⟨"p1", Json.obj [("Due Date", Json.obj [("date", Json.obj [("start", Json.num 3)])])]⟩

-- =========================================================================
-- Helper lemmas
-- =========================================================================

lemma jGetS_error (j : Json) (k : String) (e : PyErr) :
    jGetS j k = Except.error e → e = PyErr.keyError ∨ e = PyErr.typeError := by
  cases j <;> simp only [jGetS] <;> intro h
  case null => exact Or.inr (Except.error.inj h).symm
  case bool b => exact Or.inr (Except.error.inj h).symm
  case num n => exact Or.inr (Except.error.inj h).symm
  case str s => exact Or.inr (Except.error.inj h).symm
  case arr es => exact Or.inr (Except.error.inj h).symm
  case obj fields =>
    cases hl : jLookup fields k <;> rw [hl] at h
    · exact Or.inl (Except.error.inj h).symm
    · exact absurd h (by simp)

lemma dateChain_error (props : Json) (k : String) (e : PyErr) :
    dateChain props k = Except.error e → e = PyErr.keyError ∨ e = PyErr.typeError := by
  unfold dateChain
  cases h1 : jGetS props k with
  | error e1 =>
      intro h
      simp only [h1, bind, Except.bind] at h
      exact (Except.error.inj h) ▸ jGetS_error props k e1 h1
  | ok a =>
      cases h2 : jGetS a "date" with
      | error e2 =>
          intro h
          simp only [h1, h2, bind, Except.bind] at h
          exact (Except.error.inj h) ▸ jGetS_error a "date" e2 h2
      | ok b =>
          intro h
          simp only [h1, h2, bind, Except.bind] at h
          exact jGetS_error b "start" e h

lemma statusChain_error (props : Json) (k : String) (e : PyErr) :
    statusChain props k = Except.error e → e = PyErr.keyError ∨ e = PyErr.typeError := by
  unfold statusChain
  cases h1 : jGetS props k with
  | error e1 =>
      intro h
      simp only [h1, bind, Except.bind] at h
      exact (Except.error.inj h) ▸ jGetS_error props k e1 h1
  | ok a =>
      cases h2 : jGetS a "status" with
      | error e2 =>
          intro h
          simp only [h1, h2, bind, Except.bind] at h
          exact (Except.error.inj h) ▸ jGetS_error a "status" e2 h2
      | ok b =>
          intro h
          simp only [h1, h2, bind, Except.bind] at h
          exact jGetS_error b "name" e h

lemma get_date_total (props : Json) (k : String) : ∃ v, _get_date props k = Except.ok v := by
  unfold _get_date
  cases h : dateChain props k with
  | ok v => exact ⟨v, rfl⟩
  | error e =>
      rcases dateChain_error props k e h with he | he <;> subst he <;> exact ⟨_, rfl⟩

lemma get_status_total (props : Json) (k : String) : ∃ v, _get_status props k = Except.ok v := by
  unfold _get_status
  cases h : statusChain props k with
  | ok v => exact ⟨v, rfl⟩
  | error e =>
      rcases statusChain_error props k e h with he | he <;> subst he <;> exact ⟨_, rfl⟩

-- =========================================================================
-- C8: total, sentinel-degrading field extraction
-- =========================================================================

/-- C8 counterexample: extraction is not total on every properties mapping.
A properties mapping whose title property holds a null value makes
_get_title raise TypeError (only KeyError and IndexError are caught),
contradicting the claim that extraction never raises. -/
theorem c8_null_title_raises :
    _get_title (Json.obj [("Name", Json.obj [("title", Json.null)])]) "Name"
      = Except.error PyErr.typeError := rfl

/-- C8 (amended): field extraction degrades to sentinels — a missing title
yields "Untitled" (likewise an empty title list), a missing rich-text field
yields the empty string, a missing or null date field yields "No date", a
missing status field yields "Not started", and _get_date and _get_status are
total on every properties value; however _get_title and _get_text are not
total: a null (non-subscriptable) title or rich_text value raises an uncaught
TypeError. -/
theorem c8_extraction_sentinels :
    (∀ fields k, jLookup fields k = none →
        _get_title (Json.obj fields) k = Except.ok (Json.str "Untitled"))
  ∧ (∀ fields k, jLookup fields k = some (Json.obj [("title", Json.arr [])]) →
        _get_title (Json.obj fields) k = Except.ok (Json.str "Untitled"))
  ∧ (∀ fields k, jLookup fields k = none →
        _get_text (Json.obj fields) k = Except.ok (Json.str ""))
  ∧ (∀ fields k, jLookup fields k = none →
        _get_date (Json.obj fields) k = Except.ok (Json.str "No date"))
  ∧ (∀ fields k, jLookup fields k = some (Json.obj [("date", Json.null)]) →
        _get_date (Json.obj fields) k = Except.ok (Json.str "No date"))
  ∧ (∀ fields k, jLookup fields k = none →
        _get_status (Json.obj fields) k = Except.ok (Json.str "Not started"))
  ∧ (∀ props k, ∃ v, _get_date props k = Except.ok v)
  ∧ (∀ props k, ∃ v, _get_status props k = Except.ok v) := by
  refine ⟨?_, ?_, ?_, ?_, ?_, ?_, get_date_total, get_status_total⟩
  · intro fields k h
    simp [_get_title, titleChain, jGetS, h, bind, Except.bind]
  · intro fields k h
    simp [_get_title, titleChain, jGetS, h, bind, Except.bind, jLookup, jGetN]
  · intro fields k h
    simp [_get_text, textChain, jGetS, h, bind, Except.bind]
  · intro fields k h
    simp [_get_date, dateChain, jGetS, h, bind, Except.bind]
  · intro fields k h
    simp [_get_date, dateChain, jGetS, h, bind, Except.bind, jLookup]
  · intro fields k h
    simp [_get_status, statusChain, jGetS, h, bind, Except.bind]

/-- C8 witness: the sentinel behaviour at a concrete empty properties
mapping. -/
theorem c8_extraction_sentinels_witness :
    _get_title (Json.obj []) "Name" = Except.ok (Json.str "Untitled") :=
  c8_extraction_sentinels.1 [] "Name" rfl

lemma parse_items_mem (t : String) :
    ∀ (l : List Page) (items : List Item) (p : Page) (it : Item),
      parse_items t l = Except.ok items → p ∈ l → parse_item t p = Except.ok it →
      it ∈ items := by
  intro l
  induction l with
  | nil => intro items p it _ hp; exact absurd hp (List.not_mem_nil p)
  | cons hd tl ih =>
      intro items p it hparse hp hitem
      unfold parse_items at hparse
      cases hh : parse_item t hd with
      | error e => rw [hh] at hparse; simp [bind, Except.bind] at hparse
      | ok it0 =>
          rw [hh] at hparse
          cases ht : parse_items t tl with
          | error e => rw [ht] at hparse; simp [bind, Except.bind] at hparse
          | ok rest =>
              rw [ht] at hparse
              simp only [bind, Except.bind, pure, Except.pure, Except.ok.injEq] at hparse
              subst hparse
              rcases List.mem_cons.mp hp with hph | hpt
              · subst hph
                rw [hh] at hitem
                exact List.mem_cons.mpr (Or.inl (Except.ok.inj hitem).symm)
              · exact List.mem_cons.mpr (Or.inr (ih rest p it ht hpt hitem))

lemma mem_sortByDue (p : Page) (db : List Page) : p ∈ db → p ∈ dbSortByDue db := by
  intro h
  exact (List.Perm.mem_iff (List.perm_insertionSort pageLe db)).mpr h

-- =========================================================================
-- C1: create followed by list round-trips the submitted fields
-- =========================================================================

/-- C1 counterexample: a record created through mcp_server.add_assignment is
not read back with the submitted name by _parse_items.  mcp_server writes the
title under "Title" while _parse_items reads "Name", so the listing shows the
sentinel "Untitled" instead of the submitted title. -/
theorem c1_mcp_title_mismatch :
    list_assignments [mcp_add_assignment_page "pageid-1" "Homework 3" "CS101" "2025-12-20"]
        (Except.ok ())
      = [⟨"pageid-1", Json.str "Untitled", Json.str "CS101", Json.str "2025-12-20",
          Json.str "", Json.str "Not started", none⟩]
  ∧ jsonIsStr (Json.str "Untitled") "Homework 3" = false := ⟨rfl, rfl⟩

/-- C1 (amended): for every work-item collection, a record created through
notion_service with status omitted is read back by the corresponding list
operation with exactly the submitted name, course_code and due_date, and
status "Not started"; for records created through mcp_server.add_assignment,
which writes the title under "Title" while _parse_items reads "Name", the
read-back name is the sentinel "Untitled" (course_code, due_date and status
still round-trip). -/
theorem c1_create_then_list :
    (∀ db name cc dd newId items,
        parse_items "assignment"
            (dbSortByDue (dbCreate db (add_assignment_page newId name cc dd)))
          = Except.ok items →
        (⟨newId, Json.str name, Json.str cc, Json.str dd, Json.str "",
          Json.str "Not started", none⟩ : Item) ∈ items)
  ∧ (∀ newId name cc dd,
        parse_item "lab" (add_lab_page newId name cc dd)
          = Except.ok ⟨newId, Json.str name, Json.str cc, Json.str dd, Json.str "",
              Json.str "Not started", some (Json.str "")⟩)
  ∧ (∀ newId name cc dd,
        parse_item "project" (add_project_page newId name cc dd)
          = Except.ok ⟨newId, Json.str name, Json.str cc, Json.str dd, Json.str "",
              Json.str "Not started", none⟩)
  ∧ (∀ newId ttl cc dd,
        parse_item "assignment" (mcp_add_assignment_page newId ttl cc dd)
          = Except.ok ⟨newId, Json.str "Untitled", Json.str cc, Json.str dd, Json.str "",
              Json.str "Not started", none⟩) := by
  refine ⟨?_, fun _ _ _ _ => rfl, fun _ _ _ _ => rfl, fun _ _ _ _ => rfl⟩
  intro db name cc dd newId items hparse
  have hpmem : add_assignment_page newId name cc dd ∈ dbCreate db (add_assignment_page newId name cc dd) :=
    List.mem_append_right db (List.mem_singleton.mpr rfl)
  exact parse_items_mem "assignment" _ items _ _ hparse (mem_sortByDue _ _ hpmem) rfl

/-- C1 witness: the round trip at a concrete store. -/
theorem c1_create_then_list_witness :
    (⟨"id-9", Json.str "HW1", Json.str "CS101", Json.str "2025-12-20", Json.str "",
      Json.str "Not started", none⟩ : Item)
      ∈ [⟨"id-9", Json.str "HW1", Json.str "CS101", Json.str "2025-12-20", Json.str "",
          Json.str "Not started", none⟩] :=
  c1_create_then_list.1 [] "HW1" "CS101" "2025-12-20" "id-9" _ rfl

-- =========================================================================
-- C2: failure handling at the adapter boundary
-- =========================================================================

/-- C2 counterexample: mcp_server.add_assignment does not catch-and-tag its
remote failure — its except block re-raises, so the exception propagates to
its caller (handle_call_tool), contradicting the claim that the tool-facing
adapter functions never propagate an exception. -/
theorem c2_mcp_add_assignment_raises :
    mcp_add_assignment (Except.error "network unreachable")
      = Except.error "network unreachable" := rfl

/-- C2 (amended): every notion_service operation (create, update_status,
update_due_date, update_course, update_notes, archive) catches any remote
failure and returns a tagged success/failure dictionary whose message carries
the failure text; the tool-facing add helpers in mcp_server.py instead
re-raise, and the exception is converted to an error text only one level up,
inside handle_call_tool. -/
theorem c2_adapter_failures_tagged :
    (∀ nm e, add_assignment_result nm (Except.error e)
        = ⟨false, "Error adding assignment: " ++ e⟩)
  ∧ (∀ nm e, add_lab_result nm (Except.error e) = ⟨false, "Error adding lab: " ++ e⟩)
  ∧ (∀ nm e, add_project_result nm (Except.error e) = ⟨false, "Error adding project: " ++ e⟩)
  ∧ (∀ nm e, add_course_result nm (Except.error e) = ⟨false, "Error adding course: " ++ e⟩)
  ∧ (∀ st e, update_status_result st (Except.error e) = ⟨false, "Error updating status: " ++ e⟩)
  ∧ (∀ dt e, update_due_date_result dt (Except.error e)
        = ⟨false, "Error updating due date: " ++ e⟩)
  ∧ (∀ cs e, update_course_result cs (Except.error e) = ⟨false, "Error updating course: " ++ e⟩)
  ∧ (∀ e, update_notes_result (Except.error e) = ⟨false, "Error updating notes: " ++ e⟩)
  ∧ (∀ e, delete_item_result (Except.error e) = ⟨false, "Error deleting item: " ++ e⟩)
  ∧ (∀ nm, add_assignment_result nm (Except.ok ()) |>.success)
  ∧ (∀ e, mcp_add_assignment (Except.error e) = Except.error e)
  ∧ (∀ ttl cs dd e, handle_call_tool_add_assignment ttl cs dd (Except.error e)
        = "Error executing tool add_assignment: " ++ e) :=
  ⟨fun _ _ => rfl, fun _ _ => rfl, fun _ _ => rfl, fun _ _ => rfl, fun _ _ => rfl,
   fun _ _ => rfl, fun _ _ => rfl, fun _ => rfl, fun _ => rfl, fun _ => rfl,
   fun _ => rfl, fun _ _ _ _ => rfl⟩

-- =========================================================================
-- C10: a failed list query is indistinguishable from an empty collection
-- =========================================================================

/-- C10: every list operation catches a remote failure and returns the empty
list, so at the adapter interface a failed query equals an empty collection,
and the list menu renders the same not-found reply for a failed fetch as for
a genuinely empty store. -/
theorem c10_list_failure_empty :
    (∀ db e, list_assignments db (Except.error e) = [])
  ∧ (∀ db e, list_labs db (Except.error e) = [])
  ∧ (∀ db e, list_projects db (Except.error e) = [])
  ∧ (∀ db e, list_courses db (Except.error e) = [])
  ∧ (∀ db e, list_assignments db (Except.error e) = list_assignments [] (Except.ok ()))
  ∧ (∀ db e, list_assignments_response db (Except.error e)
        = (no_assignments_message, LIST_MENU))
  ∧ list_assignments_response [] (Except.ok ()) = (no_assignments_message, LIST_MENU) :=
  ⟨fun _ _ => rfl, fun _ _ => rfl, fun _ _ => rfl, fun _ _ => rfl, fun _ _ => rfl,
   fun _ _ => rfl, rfl⟩

-- =========================================================================
-- C5: Add flow with an empty course collection
-- =========================================================================

/-- C5 counterexample: entering the Add-Assignment flow with zero courses
does short-circuit back to the Add menu with the no-courses message, but a
draft field HAS been created: the handler writes assignment_name into the
session draft before checking the course list and does not clear it on the
redirection. -/
theorem c5_draft_field_remains :
    add_assignment_name_handler [] "Homework 3" [] (Except.ok ())
      = (ADD_MENU, [("assignment_name", "Homework 3")], no_courses_message)
  ∧ draftGet [("assignment_name", "Homework 3")] "assignment_name" = some "Homework 3"
  ∧ List.isEmpty ([("assignment_name", "Homework 3")] : Draft) = false := ⟨rfl, rfl, rfl⟩

/-- C5 (amended): whenever the course collection the handler fetches is empty
(including a failed fetch, which also yields the empty list), the
Add-Assignment flow short-circuits back to the Add menu with the no-courses
message; the assignment_name field written before the check remains in the
session draft until a later clearing transition. -/
theorem c5_no_courses_short_circuit :
    ∀ dr t db r, list_courses db r = [] →
      add_assignment_name_handler dr t db r
          = (ADD_MENU, draftInsert dr "assignment_name" t, no_courses_message)
        ∧ draftGet (draftInsert dr "assignment_name" t) "assignment_name" = some t := by
  intro dr t db r h
  constructor
  · unfold add_assignment_name_handler
    rw [h]
    rfl
  · unfold draftInsert draftGet
    simp

/-- C5 witness: the short circuit at a concrete empty store. -/
theorem c5_no_courses_short_circuit_witness :
    add_assignment_name_handler [] "HW" [] (Except.ok ())
        = (ADD_MENU, draftInsert [] "assignment_name" "HW", no_courses_message)
      ∧ draftGet (draftInsert [] "assignment_name" "HW") "assignment_name" = some "HW" :=
  c5_no_courses_short_circuit [] "HW" [] (Except.ok ()) rfl

-- =========================================================================
-- C6: the session is cleared on every transition into the main menu
-- =========================================================================

/-- C6: whenever the terminal Add-Assignment state returns MAIN_MENU the
session draft is empty and exactly one create call was issued; with a
complete draft, a notes text makes the terminal handler return MAIN_MENU
with a cleared session and one create call for every remote outcome
(success or failure alike); cancellation clears the session and returns
MAIN_MENU; and the edit-date text handler also clears the session whenever
it returns MAIN_MENU. -/
theorem c6_session_cleared_on_main_menu :
    (∀ dr i r s d2 k m, add_assignment_notes_handler dr i r = some (s, d2, k, m) →
        s = MAIN_MENU → d2 = [] ∧ k = 1)
  ∧ (∀ dr r notes nm cs dt,
        draftGet dr "assignment_name" = some nm →
        draftGet dr "assignment_course" = some cs →
        draftGet dr "assignment_date" = some dt →
        ∃ m, add_assignment_notes_handler dr (TgInput.text notes) r
            = some (MAIN_MENU, [], 1, m))
  ∧ (∀ dr, cancel_handler dr = (MAIN_MENU, ([] : Draft), cancel_message))
  ∧ (∀ dr t r, (edit_date_text_handler dr t r).1 = MAIN_MENU →
        (edit_date_text_handler dr t r).2.1 = []) := by
  refine ⟨?_, ?_, fun _ => rfl, ?_⟩
  · have hsave : ∀ dr notes r s d2 k m, add_assignment_save dr notes r = some (s, d2, k, m) →
        s = MAIN_MENU → d2 = [] ∧ k = 1 := by
      intro dr notes r s d2 k m h _
      unfold add_assignment_save at h
      cases h1 : draftGet dr "assignment_name" <;> rw [h1] at h
      · simp at h
      cases h2 : draftGet dr "assignment_course" <;> rw [h2] at h
      · simp at h
      cases h3 : draftGet dr "assignment_date" <;> rw [h3] at h
      · simp at h
      simp only [Option.some.injEq, Prod.mk.injEq] at h
      exact ⟨h.2.1.symm, h.2.2.1.symm⟩
    intro dr i r s d2 k m h hs
    cases i with
    | cb dat =>
        simp only [add_assignment_notes_handler] at h
        by_cases hb : dat = "back_add"
        · rw [if_pos hb] at h
          simp only [Option.some.injEq, Prod.mk.injEq] at h
          rw [hs] at h
          exact absurd h.1.symm (by decide)
        · rw [if_neg hb] at h
          by_cases hk : dat = "skip"
          · rw [if_pos hk] at h
            exact hsave dr "" r s d2 k m h hs
          · rw [if_neg hk] at h
            simp only [Option.some.injEq, Prod.mk.injEq] at h
            rw [hs] at h
            exact absurd h.1.symm (by decide)
    | text t => exact hsave dr t r s d2 k m h hs
  · intro dr r notes nm cs dt h1 h2 h3
    refine ⟨if (add_assignment_result nm r).success then add_assignment_success_text nm cs dt notes
        else "❌ Error: " ++ (add_assignment_result nm r).message, ?_⟩
    simp only [add_assignment_notes_handler, add_assignment_save, h1, h2, h3]
  · intro dr t r
    simp only [edit_date_text_handler]
    cases hp : parseYMDChars (pyStrip t).data with
    | none =>
        intro hc
        simp [EDIT_DATE, MAIN_MENU] at hc
    | some v => intro _; rfl

/-- C6 witness: with a complete concrete draft, a failing create still
transitions to MAIN_MENU with the session cleared and one create call. -/
theorem c6_session_cleared_witness :
    ∃ m, add_assignment_notes_handler
        [("assignment_name", "HW"), ("assignment_course", "CS101"),
         ("assignment_date", "2025-12-20")]
        (TgInput.text "") (Except.error "boom")
      = some (MAIN_MENU, [], 1, m) :=
  c6_session_cleared_on_main_menu.2.1
    [("assignment_name", "HW"), ("assignment_course", "CS101"),
     ("assignment_date", "2025-12-20")]
    (Except.error "boom") "" "HW" "CS101" "2025-12-20" rfl rfl rfl

-- =========================================================================
-- C4: sentinel records in user-facing lists
-- =========================================================================

/-- C4 counterexample: the upcoming-work rendering does not exclude items
whose extracted name is the sentinel "Untitled" — the section loops render
every fetched item, so an Untitled item appears in the reply text. -/
theorem c4_upcoming_renders_untitled :
    jsonIsStr untitled_item.name "Untitled" = true
  ∧ upcoming_item_line untitled_item ∈ [untitled_item].map upcoming_item_line
  ∧ upcoming_text 7 ⟨[untitled_item], [], []⟩
      = "📅 Due in the next 7 days:\n\n📝 Assignments:\n  • Untitled (CS101) - 2025-12-20\n\n" := by
  refine ⟨rfl, ?_, by decide⟩
  exact List.mem_map_of_mem upcoming_item_line (List.mem_singleton.mpr rfl)

/-- C4 (amended): every pick-list keyboard (item pick-lists and the course
pick-list) and the courses listing exclude items whose name is the sentinel
"Untitled" (rendering such items never fails: the builders are total); the
upcoming-work rendering, however, displays sentinel-named items unfiltered. -/
theorem c4_sentinel_filtering :
    (∀ items itemType b, b ∈ items_list_buttons items itemType →
        b = ("🔙 Back", "back_list")
        ∨ ∃ it, it ∈ items ∧ jsonIsStr it.name "Untitled" = false
            ∧ b = mk_item_button itemType it)
  ∧ (∀ courses b, b ∈ courses_buttons courses →
        b = ("🔙 Back", "back_add")
        ∨ ∃ c, c ∈ courses ∧ jsonIsStr c.name "Untitled" = false
            ∧ b = (fmtJson c.course_code ++ " - " ++ fmtJson c.name,
                   "course_" ++ fmtJson c.course_code))
  ∧ (∀ items l, l ∈ courses_listing_lines items →
        ∃ c, c ∈ items ∧ jsonIsStr c.name "Untitled" = false
            ∧ l = course_listing_line c) := by
  refine ⟨?_, ?_, ?_⟩
  · intro items itemType b hb
    rcases List.mem_append.mp hb with hl | hr
    · right
      rcases List.mem_map.mp hl with ⟨it, hit, hbeq⟩
      rcases List.mem_filter.mp hit with ⟨hmem, hkeep⟩
      rcases Bool.and_eq_true_iff.mp hkeep with ⟨_, hnu⟩
      exact ⟨it, hmem, by simpa using hnu, hbeq.symm⟩
    · exact Or.inl (List.mem_singleton.mp hr)
  · intro courses b hb
    rcases List.mem_append.mp hb with hl | hr
    · right
      rcases List.mem_map.mp hl with ⟨c, hct, hbeq⟩
      rcases List.mem_filter.mp hct with ⟨hmem, hkeep⟩
      rcases Bool.and_eq_true_iff.mp hkeep with ⟨hl2, _⟩
      rcases Bool.and_eq_true_iff.mp hl2 with ⟨_, hnu⟩
      exact ⟨c, hmem, by simpa using hnu, hbeq.symm⟩
    · exact Or.inl (List.mem_singleton.mp hr)
  · intro items l hl
    rcases List.mem_map.mp hl with ⟨c, hct, hleq⟩
    rcases List.mem_filter.mp hct with ⟨hmem, hkeep⟩
    rcases Bool.and_eq_true_iff.mp hkeep with ⟨_, hnu⟩
    exact ⟨c, hmem, by simpa using hnu, hleq.symm⟩

/-- C4 witness: a concrete two-item pick-list in which the sentinel item
yields no button. -/
theorem c4_sentinel_filtering_witness :
    ("⚪ HW1 (CS101)", "assignment_id-2")
        = ("🔙 Back", "back_list")
      ∨ ∃ it, it ∈ [untitled_item,
            (⟨"id-2", Json.str "HW1", Json.str "CS101", Json.str "2025-12-20",
              Json.str "", Json.str "Not started", none⟩ : Item)]
          ∧ jsonIsStr it.name "Untitled" = false
          ∧ ("⚪ HW1 (CS101)", "assignment_id-2") = mk_item_button "assignment" it :=
  c4_sentinel_filtering.1
    [untitled_item,
     ⟨"id-2", Json.str "HW1", Json.str "CS101", Json.str "2025-12-20",
      Json.str "", Json.str "Not started", none⟩]
    "assignment" ("⚪ HW1 (CS101)", "assignment_id-2") (by decide)

-- =========================================================================
-- C9: id truncation in button payloads and first-match resolution
-- =========================================================================

/-- C9: a pick-list button payload embeds the record id truncated to the
32-character prefix (a prefix of the full id, at most 32 characters long);
selection re-resolves the truncated id against the freshly fetched list; and
when several records match the prefix, the first match in list order wins. -/
theorem c9_truncation_and_resolution :
    (∀ itemType it, (mk_item_button itemType it).2 = itemType ++ "_" ++ pySlice32 it.id
        ∧ (pySlice32 it.id).data <+: it.id.data
        ∧ (pySlice32 it.id).data.length ≤ 32)
  ∧ (∀ items itemType b, b ∈ items_list_buttons items itemType →
        b.2 = "back_list" ∨ ∃ it, it ∈ items ∧ b.2 = itemType ++ "_" ++ pySlice32 it.id)
  ∧ (∀ itemId db r, list_assignments_select itemId db r
        = resolve_selected itemId (list_assignments db r))
  ∧ (∀ pre (l1 : List Item) x l2, (∀ y ∈ l1, pyStartsWith y.id pre = false) →
        pyStartsWith x.id pre = true →
        resolve_selected pre (l1 ++ x :: l2) = some x) := by
  refine ⟨?_, ?_, fun _ _ _ => rfl, ?_⟩
  · intro itemType it
    refine ⟨rfl, List.take_prefix 32 it.id.data, ?_⟩
    simp [pySlice32, List.length_take]
  · intro items itemType b hb
    rcases List.mem_append.mp hb with hl | hr
    · right
      rcases List.mem_map.mp hl with ⟨it, hit, hbeq⟩
      exact ⟨it, (List.mem_filter.mp hit).1, by rw [← hbeq]; rfl⟩
    · exact Or.inl (congrArg Prod.snd (List.mem_singleton.mp hr))
  · intro pre l1 x l2 hnone hx
    induction l1 with
    | nil =>
        show List.find? _ (x :: l2) = some x
        exact List.find?_cons_of_pos l2 hx
    | cons y ys ih =>
        have hy := hnone y (List.mem_cons_self y ys)
        show List.find? _ (y :: (ys ++ x :: l2)) = some x
        rw [List.find?_cons_of_neg _ (by simp [hy])]
        exact ih (fun z hz => hnone z (List.mem_cons_of_mem y hz))

/-- C9 witness: two records sharing the 2-character prefix ab; resolution
picks the first in list order. -/
theorem c9_truncation_and_resolution_witness :
    resolve_selected "ab"
        ([(⟨"zz-1", Json.str "A", Json.str "C", Json.str "d", Json.str "",
            Json.str "Not started", none⟩ : Item)]
          ++ (⟨"ab-1", Json.str "B", Json.str "C", Json.str "d", Json.str "",
               Json.str "Not started", none⟩ : Item)
            :: [⟨"ab-2", Json.str "B2", Json.str "C", Json.str "d", Json.str "",
                 Json.str "Not started", none⟩])
      = some ⟨"ab-1", Json.str "B", Json.str "C", Json.str "d", Json.str "",
              Json.str "Not started", none⟩ :=
  c9_truncation_and_resolution.2.2.2 "ab" _ _ _
    (by intro y hy; simp only [List.mem_singleton] at hy; subst hy; decide)
    (by decide)

-- =========================================================================
-- C7: the upcoming-work query window
-- =========================================================================

/-- C7: for every non-negative day count, the windowed query of each of the
three collections returns exactly the pages whose service date index lies in
the closed interval from today to today plus days (both endpoints included),
sorted ascending by that index; and for each collection independently,
get_upcoming returns exactly the parse of that windowed query when the
collection's remote call succeeds. -/
theorem c7_upcoming_window :
    ∀ (days today : Int) (dbA dbL dbP : List Page) (rA rL rP : Except String Unit),
      0 ≤ days →
      (∀ db p, p ∈ dbQueryWindow today (today + days) db ↔
          p ∈ db ∧ ∃ n, pageDue p = some n ∧ today ≤ n ∧ n ≤ today + days)
      ∧ (∀ db, List.Sorted pageLe (dbQueryWindow today (today + days) db))
      ∧ (∀ items, rA = Except.ok () →
            parse_items "assignment" (dbQueryWindow today (today + days) dbA)
              = Except.ok items →
            (get_upcoming days today dbA dbL dbP rA rL rP).assignments = items)
      ∧ (∀ items, rL = Except.ok () →
            parse_items "lab" (dbQueryWindow today (today + days) dbL) = Except.ok items →
            (get_upcoming days today dbA dbL dbP rA rL rP).labs = items)
      ∧ (∀ items, rP = Except.ok () →
            parse_items "project" (dbQueryWindow today (today + days) dbP)
              = Except.ok items →
            (get_upcoming days today dbA dbL dbP rA rL rP).projects = items) := by
  intro days today dbA dbL dbP rA rL rP _
  refine ⟨?_, ?_, ?_, ?_, ?_⟩
  · intro db p
    unfold dbQueryWindow
    rw [List.Perm.mem_iff (List.perm_insertionSort pageLe _), List.mem_filter]
    unfold inWindow
    cases hd : pageDue p with
    | some n =>
        simp only [Bool.and_eq_true, decide_eq_true_eq, Option.some.injEq]
        constructor
        · rintro ⟨hm, h1, h2⟩; exact ⟨hm, n, rfl, h1, h2⟩
        · rintro ⟨hm, n2, hn2, h1, h2⟩; cases hn2; exact ⟨hm, h1, h2⟩
    | none =>
        simp
  · intro db
    exact List.sorted_insertionSort pageLe _
  · intro items hr hp
    subst hr
    simp only [get_upcoming, upcoming_collection, hp]
  · intro items hr hp
    subst hr
    simp only [get_upcoming, upcoming_collection, hp]
  · intro items hr hp
    subst hr
    simp only [get_upcoming, upcoming_collection, hp]

/-- C7 witness: a concrete store whose single page (date index 3) falls in
the 7-day window from day 0 and is returned parsed. -/
theorem c7_upcoming_window_witness :
    (get_upcoming 7 0 [upcoming_demo_page] [] []
        (Except.ok ()) (Except.ok ()) (Except.ok ())).assignments
      = [⟨"p1", Json.str "Untitled", Json.str "", Json.num 3, Json.str "",
          Json.str "Not started", none⟩] :=
  (c7_upcoming_window 7 0 [upcoming_demo_page] [] []
      (Except.ok ()) (Except.ok ()) (Except.ok ()) (by decide)).2.2.1
    [⟨"p1", Json.str "Untitled", Json.str "", Json.num 3, Json.str "",
      Json.str "Not started", none⟩] rfl rfl

lemma digitChar_not_space (c : Char) (h : isDigitChar c = true) : isPySpace c = false := by
  simp only [isDigitChar, Bool.and_eq_true, decide_eq_true_eq] at h
  simp only [isPySpace, Bool.or_eq_false_iff, decide_eq_false_iff_not]
  omega

lemma dropWhile_of_forall_false (p : Char → Bool) :
    ∀ l : List Char, (∀ c ∈ l, p c = false) → l.dropWhile p = l := by
  intro l h
  cases l with
  | nil => rfl
  | cons a as =>
      rw [List.dropWhile_cons, h a (List.mem_cons_self a as)]
      simp

lemma pyStripChars_id (l : List Char) (h : ∀ c ∈ l, isPySpace c = false) :
    pyStripChars l = l := by
  unfold pyStripChars
  rw [dropWhile_of_forall_false _ l h,
      dropWhile_of_forall_false _ l.reverse (fun c hc => h c (List.mem_reverse.mp hc)),
      List.reverse_reverse]

lemma daysInMonth_le_31 (y m : Nat) : daysInMonth y m ≤ 31 := by
  unfold daysInMonth
  split
  · split <;> omega
  · split <;> omega

lemma digitChar_ne_dash (c : Char) (h : isDigitChar c = true) : c ≠ '-' := by
  intro hc
  subst hc
  exact absurd h (by decide)

lemma splitOnDash_nodash (l : List Char) (h : ∀ c ∈ l, c ≠ '-') : splitOnDash l = [l] := by
  induction l with
  | nil => rfl
  | cons c rest ih =>
      simp only [splitOnDash]
      rw [if_neg (h c (List.mem_cons_self c rest)),
          ih (fun x hx => h x (List.mem_cons_of_mem c hx))]

lemma splitOnDash_append (s1 rest : List Char) (h : ∀ c ∈ s1, c ≠ '-') :
    splitOnDash (s1 ++ '-' :: rest) = s1 :: splitOnDash rest := by
  induction s1 with
  | nil =>
      show splitOnDash ('-' :: rest) = [] :: splitOnDash rest
      simp only [splitOnDash]
      simp
  | cons c s ih =>
      have hc := h c (List.mem_cons_self c s)
      have ih2 := ih (fun x hx => h x (List.mem_cons_of_mem c hx))
      show splitOnDash (c :: (s ++ '-' :: rest)) = (c :: s) :: splitOnDash rest
      simp only [splitOnDash]
      rw [if_neg hc, ih2]

lemma parseYMDChars_eq (cs ys ms ds : List Char)
    (hsplit : splitOnDash cs = [ys, ms, ds])
    (hlen : ys.length = 4 ∧ 1 ≤ ms.length ∧ ms.length ≤ 2 ∧ 1 ≤ ds.length ∧ ds.length ≤ 2) :
    parseYMDChars cs = mkYMD ys ms ds := by
  unfold parseYMDChars
  rw [hsplit]
  exact if_pos hlen

/-- A strict ISO calendar date is accepted by the strip-and-strptime step. -/
lemma iso_spec_accepted (t : String) (h : isISODateSpec t = true) :
    pyStrip t = t ∧ ∃ v, parseYMDChars t.data = some v := by
  obtain ⟨l⟩ := t
  unfold isISODateSpec at h
  simp only at h
  split at h
  case h_2 => exact absurd h (by simp)
  case h_1 y1 y2 y3 y4 m1 m2 d1 d2 =>
    split at h
    case isFalse => exact absurd h (by simp)
    case isTrue hdig =>
      simp only [List.all_cons, List.all_nil, Bool.and_eq_true, Bool.and_true] at hdig
      obtain ⟨h1, h2, h3, h4, h5, h6, h7, h8⟩ := hdig
      have hns : ∀ c ∈ [y1, y2, y3, y4, '-', m1, m2, '-', d1, d2], isPySpace c = false := by
        intro c hc
        simp only [List.mem_cons, List.not_mem_nil, or_false] at hc
        rcases hc with rfl | rfl | rfl | rfl | rfl | rfl | rfl | rfl | rfl | rfl
        · exact digitChar_not_space _ h1
        · exact digitChar_not_space _ h2
        · exact digitChar_not_space _ h3
        · exact digitChar_not_space _ h4
        · decide
        · exact digitChar_not_space _ h5
        · exact digitChar_not_space _ h6
        · decide
        · exact digitChar_not_space _ h7
        · exact digitChar_not_space _ h8
      constructor
      · show String.mk (pyStripChars [y1, y2, y3, y4, '-', m1, m2, '-', d1, d2]) = _
        rw [pyStripChars_id _ hns]
      · refine ⟨(natOfChars [y1, y2, y3, y4], natOfChars [m1, m2], natOfChars [d1, d2]), ?_⟩
        show parseYMDChars [y1, y2, y3, y4, '-', m1, m2, '-', d1, d2] = _
        have hsplit : splitOnDash [y1, y2, y3, y4, '-', m1, m2, '-', d1, d2]
            = [[y1, y2, y3, y4], [m1, m2], [d1, d2]] := by
          have e1 : [y1, y2, y3, y4, '-', m1, m2, '-', d1, d2]
              = [y1, y2, y3, y4] ++ '-' :: ([m1, m2] ++ '-' :: [d1, d2]) := rfl
          rw [e1]
          rw [splitOnDash_append _ _ (by
            intro c hc
            simp only [List.mem_cons, List.not_mem_nil, or_false] at hc
            rcases hc with rfl | rfl | rfl | rfl
            · exact digitChar_ne_dash _ h1
            · exact digitChar_ne_dash _ h2
            · exact digitChar_ne_dash _ h3
            · exact digitChar_ne_dash _ h4)]
          rw [splitOnDash_append _ _ (by
            intro c hc
            simp only [List.mem_cons, List.not_mem_nil, or_false] at hc
            rcases hc with rfl | rfl
            · exact digitChar_ne_dash _ h5
            · exact digitChar_ne_dash _ h6)]
          rw [splitOnDash_nodash _ (by
            intro c hc
            simp only [List.mem_cons, List.not_mem_nil, or_false] at hc
            rcases hc with rfl | rfl
            · exact digitChar_ne_dash _ h7
            · exact digitChar_ne_dash _ h8)]
        rw [parseYMDChars_eq _ _ _ _ hsplit (by simp)]
        unfold mkYMD
        rw [if_pos (by simp [h1, h2, h3, h4, h5, h6, h7, h8])]
        rw [if_pos (by
          rw [decide_eq_true_eq] at h
          obtain ⟨hy, hm1, hm12, hd1, hdm⟩ := h
          exact ⟨hy, hm1, hm12, hd1, le_trans hdm (daysInMonth_le_31 _ _), hdm⟩)]

lemma draftGet_filter_ne (k k2 : String) (h : k2 ≠ k) :
    ∀ dr : Draft,
      draftGet (List.filter (fun p : String × String => !(p.fst = k2 : Bool)) dr) k
        = draftGet dr k := by
  intro dr
  induction dr with
  | nil => rfl
  | cons p rest ih =>
      by_cases hp : p.fst = k2
      · rw [List.filter_cons_of_neg (by simp [hp])]
        rw [ih]
        have hk : p.fst ≠ k := by rw [hp]; exact h
        obtain ⟨a, b⟩ := p
        conv_rhs => simp only [draftGet]
        rw [if_neg hk]
      · rw [List.filter_cons_of_pos (by simp [hp])]
        obtain ⟨a, b⟩ := p
        simp only [draftGet]
        by_cases hk : a = k
        · rw [if_pos hk, if_pos hk]
        · rw [if_neg hk, if_neg hk]
          exact ih

lemma draftGet_insert_ne (dr : Draft) (k k2 v : String) (h : k2 ≠ k) :
    draftGet (draftInsert dr k2 v) k = draftGet dr k := by
  show draftGet ((k2, v) :: _) k = _
  simp only [draftGet]
  rw [if_neg h]
  exact draftGet_filter_ne k k2 h dr

-- =========================================================================
-- C3: custom-date text validation
-- =========================================================================

/-- C3 counterexample: the date step does not reject every non-conforming
string.  The non-zero-padded string 2025-1-5 is not a valid ISO YYYY-MM-DD
date, yet strptime %Y-%m-%d accepts it (its month and day groups allow one
digit), so the handler advances and mutates the draft instead of
re-prompting. -/
theorem c3_nonpadded_date_accepted :
    isISODateSpec "2025-1-5" = false
  ∧ add_assignment_date_text
        [("assignment_name", "HW"), ("assignment_course", "CS101")] "2025-1-5"
      = some (ADD_ASSIGNMENT_NOTES,
              [("assignment_date", "2025-1-5"), ("assignment_name", "HW"),
               ("assignment_course", "CS101")],
              notes_prompt "HW" "CS101" "2025-1-5")
  ∧ decide (ADD_ASSIGNMENT_NOTES = ADD_ASSIGNMENT_DATE) = false := by
  refine ⟨by decide, by decide, by decide⟩

/-- C3 (amended): the custom-date text step accepts exactly the strings whose
stripped text parses under strptime %Y-%m-%d (four-digit year, one- or
two-digit month and day forming a real calendar date — which includes
non-zero-padded forms); every valid ISO YYYY-MM-DD string is accepted, and
an accepted date advances the add flow with the stripped date stored in the
draft; every other string is rejected: the same state is returned with an
error message and the draft is untouched.  The edit-date text state rejects
the same way, but an accepted date is applied at once through
update_due_date (no draft write) and the handler then clears the session and
returns to the main menu. -/
theorem c3_date_validation :
    (∀ dr t nm cs, isISODateSpec t = true →
        draftGet dr "assignment_name" = some nm →
        draftGet dr "assignment_course" = some cs →
        add_assignment_date_text dr t
          = some (ADD_ASSIGNMENT_NOTES, draftInsert dr "assignment_date" t,
                  notes_prompt nm cs t))
  ∧ (∀ dr t, parseYMDChars (pyStrip t).data = none →
        add_assignment_date_text dr t
          = some (ADD_ASSIGNMENT_DATE, dr, invalid_date_message))
  ∧ (∀ dr t r, parseYMDChars (pyStrip t).data = none →
        edit_date_text_handler dr t r = (EDIT_DATE, dr, edit_invalid_date_message))
  ∧ (∀ dr t r v, parseYMDChars (pyStrip t).data = some v →
        ∃ m, edit_date_text_handler dr t r = (MAIN_MENU, [], m)) := by
  refine ⟨?_, ?_, ?_, ?_⟩
  · intro dr t nm cs ht h1 h2
    obtain ⟨hstrip, v, hparse⟩ := iso_spec_accepted t ht
    simp only [add_assignment_date_text, hstrip, hparse]
    rw [draftGet_insert_ne dr "assignment_name" "assignment_date" t (by decide), h1,
        draftGet_insert_ne dr "assignment_course" "assignment_date" t (by decide), h2]
  · intro dr t hp
    simp only [add_assignment_date_text, hp]
  · intro dr t r hp
    simp only [edit_date_text_handler, hp]
  · intro dr t r v hp
    refine ⟨if (update_due_date_result (pyStrip t) r).success
        then "✅ Due date updated to " ++ pyStrip t ++ "!"
        else "❌ Error: " ++ (update_due_date_result (pyStrip t) r).message, ?_⟩
    simp only [edit_date_text_handler, hp]

/-- C3 witness: a concrete strict ISO date is accepted and stored. -/
theorem c3_date_validation_witness :
    add_assignment_date_text
        [("assignment_name", "HW"), ("assignment_course", "CS101")] "2025-12-20"
      = some (ADD_ASSIGNMENT_NOTES,
              draftInsert [("assignment_name", "HW"), ("assignment_course", "CS101")]
                "assignment_date" "2025-12-20",
              notes_prompt "HW" "CS101" "2025-12-20") :=
  c3_date_validation.1 [("assignment_name", "HW"), ("assignment_course", "CS101")]
    "2025-12-20" "HW" "CS101" (by decide) rfl rfl
